import Mathlib

/-
Verification of the guardian HTTP session management package.

The embedding translates the Go sources into pure Lean functions:

* `Session`, `Cookie`, `SessionStatus` mirror the record types of
  src/session.go.  Go `time.Time` and `time.Duration` values are modelled
  as integers on one time line; `t.After(u)` in Go is strict comparison,
  so it becomes `t > u`.
* The in-memory store (src/memStore.go, a `map[string]*Session` guarded by
  a lock) becomes an association list with Go map semantics: insertion
  overwrites, lookup finds the unique binding, deletion removes it.
  Single-threaded executions are modelled; the lock is not represented.
* The `Storer` interface (src/unnamed/part_000) becomes a structure of
  operations over an abstract state type; Go's `error` results become
  `Option String` (`none` is a nil error).
* Functions of the session manager take the current time and the freshly
  generated session identifier as explicit parameters, since in Go they
  come from `time.Now()` and an md5 hash over the namespace and timestamp.
-/

namespace Guardian

/-- Session status from src/session.go: `Valid` and `Invalid` constants of
`type SessionStatus int`. -/
inductive SessionStatus where
  | Valid
  | Invalid
deriving DecidableEq, Repr

/-- The fields of Go's `http.Cookie` that the package reads or writes.
`SameSiteLax` models the assignment `SameSite: http.SameSiteLaxMode` as a
flag; `Expires` is an instant on the integer time line. -/
structure Cookie where
  Name : String
  Value : String
  Secure : Bool
  HttpOnly : Bool
  SameSiteLax : Bool
  Expires : Int
deriving DecidableEq, Repr

/-- `Session` from src/session.go.  The dynamically typed data map
`map[string]interface{}` is modelled as an association list of strings;
none of the lifecycle operations inspect it. -/
structure Session where
  ID : String
  Status : SessionStatus
  Data : List (String × String)
  IdleTime : Int
  LifeTime : Int
  RenewalTime : Int
  Cookie : Cookie
deriving DecidableEq, Repr

/-- Lookup in an association list modelling a Go map keyed by session ID. -/
def mapLookup (k : String) : List (String × Session) → Option Session
  | [] => none
  | (k', v) :: rest => if k' = k then some v else mapLookup k rest

/-- Removal of a key, modelling Go's built-in `delete` on a map. -/
def mapErase (k : String) : List (String × Session) → List (String × Session)
  | [] => []
  | (k', v) :: rest => if k' = k then mapErase k rest else (k', v) :: mapErase k rest

/-- Insertion overwriting any previous binding, modelling `m[k] = v`. -/
def mapInsert (k : String) (v : Session) (l : List (String × Session)) :
    List (String × Session) :=
  (k, v) :: mapErase k l

/-- The state of `InMemoryStore` from src/memStore.go: the `data` field of
type `map[string]*Session`. -/
abbrev InMemoryStore := List (String × Session)

namespace InMemoryStore

/-- `InMemoryStore.Get` (src/memStore.go lines 23-32): map lookup, returning
a "Session not found" error (here `none`) when the key is absent. -/
def Get (s : InMemoryStore) (sessionID : String) : Option Session :=
  mapLookup sessionID s

/-- `InMemoryStore.Save` (src/memStore.go lines 35-41): `s.data[session.ID] = session`,
always returning a nil error. -/
def Save (s : InMemoryStore) (session : Session) : InMemoryStore :=
  mapInsert session.ID session s

/-- `InMemoryStore.Delete` (src/memStore.go lines 44-50): `delete(s.data, sessionID)`,
always returning a nil error. -/
def Delete (s : InMemoryStore) (sessionID : String) : InMemoryStore :=
  mapErase sessionID s

/-- `InMemoryStore.Update` (src/memStore.go lines 53-59): the body is exactly
`s.data[sessionID] = newSession` — the new session is stored under the OLD
key `sessionID`, not under `newSession.ID`. -/
def Update (s : InMemoryStore) (sessionID : String) (newSession : Session) :
    InMemoryStore :=
  mapInsert sessionID newSession s

end InMemoryStore

/-- `InMemoryStore.Update` as written in src/unnamed/part_002 lines 42-52:
an in-place put when the key is unchanged, otherwise delete the old key and
save under the new session's own ID. -/
def InMemoryStoreV2.Update (s : InMemoryStore) (sessionID : String)
    (newSession : Session) : InMemoryStore :=
  if sessionID = newSession.ID then
    mapInsert sessionID newSession s
  else
    mapInsert newSession.ID newSession (mapErase sessionID s)

/-- Modelled from the spec (section 4.3), for comparison with the source's
`InMemoryStore.Update`: "delete the record under `oldID`, then
`Save(newRecord)`" — replace semantics. -/
def specUpdate (s : InMemoryStore) (oldID : String) (newRecord : Session) :
    InMemoryStore :=
  InMemoryStore.Save (InMemoryStore.Delete s oldID) newRecord

/-- The `Storer` interface from src/unnamed/part_000, over an abstract store
state `σ`.  `Get` yields the record or a not-found error; `Save`, `Delete`
and `Update` yield a possible error (`Option String`, `none` meaning the nil
error) together with the post-state. -/
structure Storer (σ : Type) where
  Get : σ → String → Option Session
  Save : σ → Session → Option String × σ
  Delete : σ → String → Option String × σ
  Update : σ → String → Session → Option String × σ

/-- The in-memory store of src/memStore.go packaged as a `Storer`: every
write operation returns a nil error. -/
def memStorer : Storer InMemoryStore where
  Get := fun s id => InMemoryStore.Get s id
  Save := fun s session => (none, InMemoryStore.Save s session)
  Delete := fun s id => (none, InMemoryStore.Delete s id)
  Update := fun s id session => (none, InMemoryStore.Update s id session)

/-- `SessionManager` from src/session.go, restricted to the fields the
lifecycle operations read: timeout configuration, the cookie name, and the
derived context key.  Loggers carry no session state and are omitted. -/
structure SessionManager where
  id : String
  cookieName : String
  contextKey : String
  IdleTimeout : Int
  Lifetime : Int
  RenewalTimeout : Int
deriving DecidableEq, Repr

/-- `SessionManager.CreateSession` (src/session.go lines 162-180).  The
generated identifier and the current time are parameters; the several
`time.Now()` calls in the body are collapsed to the single instant `now`.
The body only builds and returns the record: it contains no call to
`Store.Save`. -/
def SessionManager.CreateSession (s : SessionManager) (now : Int)
    (newID : String) : Session :=
  { ID := newID
    Status := SessionStatus.Valid
    Data := []
    IdleTime := now + s.IdleTimeout
    LifeTime := now + s.Lifetime
    RenewalTime := now + s.RenewalTimeout
    Cookie :=
      { Name := s.cookieName
        Value := newID
        Secure := true
        HttpOnly := true
        SameSiteLax := true
        Expires := now + s.Lifetime } }

/-- `SessionManager.InvalidateSession` (src/session.go lines 199-207):
`Store.Delete(session.ID)` first — a non-nil error is only logged through
`ErrLogger.Println` and execution continues — then the status is set to
`Invalid`, the cookie name and value are cleared, and the cookie expiry is
set to `time.Now().Add(-s.IdleTimeout)`.  The Go method returns nothing, so
no error can propagate to the caller. -/
def SessionManager.InvalidateSession {σ : Type} (S : Storer σ)
    (s : SessionManager) (session : Session) (st : σ) (now : Int) :
    Session × σ :=
  let r := S.Delete st session.ID
  ({ session with
      Status := SessionStatus.Invalid
      Cookie := { session.Cookie with
        Name := ""
        Value := ""
        Expires := now - s.IdleTimeout } },
    r.2)

/-- `SessionManager.RenewSession` (src/session.go lines 211-220): generate a
new identifier (the parameter `newId`), set the session's ID, cookie value
and status to `Valid`, then call `Store.Update(oldId, session)`.  The update
error is discarded by the Go code. -/
def SessionManager.RenewSession {σ : Type} (S : Storer σ) (s : SessionManager)
    (session : Session) (st : σ) (newId : String) : Session × σ :=
  let oldId := session.ID
  let session1 := { session with
    ID := newId
    Status := SessionStatus.Valid
    Cookie := { session.Cookie with Value := newId } }
  let r := S.Update st oldId session1
  (session1, r.2)

/-- `SessionManager.WatchTimeouts` (src/session.go lines 186-195).  Go's
`time.Now().After(t)` is the strict comparison `now > t`.  If the idle or
lifetime deadline is strictly past, the session is invalidated and the
function returns; otherwise, if the renewal deadline is strictly past,
`RenewSession` runs and then the renewal and idle deadlines are reset.
`RenewSession` hands the store a POINTER to the session
(`Store.Update(oldId, session)` on a `map[string]*Session`), so the
deadline assignments that follow in `WatchTimeouts` are visible through the
record held by the store; the functional embedding therefore writes the
final record under the old ID, which is the heap state Go leaves behind.
On the remaining path only the idle deadline is reset. -/
def SessionManager.WatchTimeouts {σ : Type} (S : Storer σ) (s : SessionManager)
    (session : Session) (st : σ) (now : Int) (newId : String) : Session × σ :=
  if now > session.IdleTime ∨ now > session.LifeTime then
    s.InvalidateSession S session st now
  else if now > session.RenewalTime then
    let final := { session with
      ID := newId
      Status := SessionStatus.Valid
      Cookie := { session.Cookie with Value := newId }
      RenewalTime := now + s.RenewalTimeout
      IdleTime := now + s.IdleTimeout }
    let r := S.Update st session.ID final
    (final, r.2)
  else
    ({ session with IdleTime := now + s.IdleTimeout }, st)

/-- Keys of a Go request context.  Go compares context keys by dynamic type
and value: the manager's key has the package-local type `contextKey` (the
`mgrKey` constructor) and is distinct from any key of another type
(`extKey`), even with an equal underlying string. -/
inductive CtxKey where
  | mgrKey : String → CtxKey
  | extKey : String → CtxKey
deriving DecidableEq, Repr

/-- Values stored in a request context: a session record or some unrelated
value (represented by a string). -/
inductive CtxVal where
  | sessionVal : Session → CtxVal
  | strVal : String → CtxVal
deriving DecidableEq, Repr

/-- A Go `context.Context` value chain: `context.WithValue` wraps a parent
context, and `Value` walks from the newest wrapper outward, so lookup
returns the first binding for the key. -/
def Context := List (CtxKey × CtxVal)

/-- Lookup along the context chain, newest binding first, modelling
`ctx.Value(key)`. -/
def Context.value : Context → CtxKey → Option CtxVal
  | [], _ => none
  | (k', v) :: rest, k => if k' = k then some v else Context.value rest k

/-- `context.WithValue(parent, key, val)`: a child context whose `Value`
answers `key` itself and defers every other key to the parent. -/
def Context.withValue (ctx : Context) (k : CtxKey) (v : CtxVal) : Context :=
  (k, v) :: ctx

/-- `SessionManager.PopulateRequestContext` (src/session.go lines 225-228):
`context.WithValue(r.Context(), s.contextKey, session)`.  Only the request's
context is modelled; the rest of the request is untouched by the Go code. -/
def SessionManager.PopulateRequestContext (s : SessionManager) (ctx : Context)
    (session : Session) : Context :=
  Context.withValue ctx (CtxKey.mgrKey s.contextKey) (CtxVal.sessionVal session)

/-- A store whose write operations all fail with an IO error, exercising the
error path of the lifecycle operations through the `Storer` interface. -/
def failStorer : Storer Unit where
  Get := fun _ _ => none
  Save := fun u _ => (some "io error", u)
  Delete := fun u _ => (some "io error", u)
  Update := fun u _ _ => (some "io error", u)

/-- A concrete cookie for worked examples. -/
def sampleCookie : Cookie :=
  { Name := "test_session", Value := "old", Secure := true, HttpOnly := true
    SameSiteLax := true, Expires := 1000 }

/-- A concrete manager: idle timeout 15, lifetime 1000, renewal timeout 5. -/
def sampleManager : SessionManager :=
  { id := "test", cookieName := "test_session", contextKey := "ck"
    IdleTimeout := 15, Lifetime := 1000, RenewalTimeout := 5 }

/-- A concrete session stored under identifier "old": renewal deadline 10,
idle deadline 20, lifetime deadline 1000. -/
def sampleSession : Session :=
  { ID := "old", Status := SessionStatus.Valid, Data := []
    IdleTime := 20, LifeTime := 1000, RenewalTime := 10, Cookie := sampleCookie }

/-- The in-memory store holding `sampleSession` under its identifier. -/
def sampleStore : InMemoryStore := [("old", sampleSession)]

/-- The sample session rotated to the fresh identifier "new". -/
def sampleNewSession : Session := { sampleSession with ID := "new" }

/-- A session sitting exactly on its idle deadline at time 10, with renewal
deadline 50 and lifetime deadline 100 still ahead. -/
def boundarySession : Session :=
  { sampleSession with IdleTime := 10, RenewalTime := 50, LifeTime := 100 }

/-- The store holding `boundarySession` under its identifier. -/
def boundaryStore : InMemoryStore := [("old", boundarySession)]

/-- A request context already holding a value under the manager's derived
context key "ck". -/
def shadowedContext : Context :=
  [(CtxKey.mgrKey "ck", CtxVal.strVal "already here")]

/-- Lookup of a key just inserted finds the inserted record. -/
theorem mapLookup_mapInsert_self (k : String) (v : Session)
    (l : List (String × Session)) : mapLookup k (mapInsert k v l) = some v := by
  simp [mapInsert, mapLookup]

/-- Lookup of a key just erased fails. -/
theorem mapLookup_mapErase_self (k : String) (l : List (String × Session)) :
    mapLookup k (mapErase k l) = none := by
  induction l with
  | nil => rfl
  | cons p rest ih =>
    obtain ⟨k', v⟩ := p
    by_cases h : k' = k
    · simp [mapErase, h, ih]
    · simp [mapErase, mapLookup, h, ih]

/-- Erasing the same key twice equals erasing it once. -/
theorem mapErase_mapErase (k : String) (l : List (String × Session)) :
    mapErase k (mapErase k l) = mapErase k l := by
  induction l with
  | nil => rfl
  | cons p rest ih =>
    obtain ⟨k', v⟩ := p
    by_cases h : k' = k
    · simp [mapErase, h, ih]
    · simp [mapErase, h, ih]

/-- C1: at time 11 — after the renewal deadline 10, strictly before the idle
deadline 20 and the lifetime deadline 1000 — `WatchTimeouts` does rotate the
identifier to the fresh "new", resets the renewal deadline to 16 and the
idle deadline to 26 and keeps the status `Valid`, but afterwards the store's
`Get` SUCCEEDS on the old identifier (returning the rotated record) and
FAILS on the new identifier, because `InMemoryStore.Update` keys the record
under the old ID.  This refutes the claim's final clause on the code. -/
theorem C1_rotation_leaves_record_under_old_id :
    (sampleManager.WatchTimeouts memStorer sampleSession sampleStore 11 "new").1.ID = "new" ∧
    (sampleManager.WatchTimeouts memStorer sampleSession sampleStore 11 "new").1.Status = SessionStatus.Valid ∧
    (sampleManager.WatchTimeouts memStorer sampleSession sampleStore 11 "new").1.RenewalTime = 16 ∧
    (sampleManager.WatchTimeouts memStorer sampleSession sampleStore 11 "new").1.IdleTime = 26 ∧
    InMemoryStore.Get (sampleManager.WatchTimeouts memStorer sampleSession sampleStore 11 "new").2 "old" =
      some (sampleManager.WatchTimeouts memStorer sampleSession sampleStore 11 "new").1 ∧
    InMemoryStore.Get (sampleManager.WatchTimeouts memStorer sampleSession sampleStore 11 "new").2 "new" = none := by
  decide

/-- C2: `InMemoryStore.Update` (src/memStore.go) applied to the store holding
a record under "old" and a new record whose ID is "new" leaves the record
fetchable under "old" and unfetchable under "new" — the opposite of the
delete-then-save semantics (`specUpdate`), which leaves "old" unfetchable
and "new" fetchable.  The two end states differ observably, refuting the
claim on the code. -/
theorem C2_update_differs_from_delete_then_save :
    mapLookup "old" (InMemoryStore.Update sampleStore "old" sampleNewSession) = some sampleNewSession ∧
    mapLookup "new" (InMemoryStore.Update sampleStore "old" sampleNewSession) = none ∧
    mapLookup "old" (specUpdate sampleStore "old" sampleNewSession) = none ∧
    mapLookup "new" (specUpdate sampleStore "old" sampleNewSession) = some sampleNewSession := by
  decide

/-- C3: `CreateSession` at time 0 with fresh identifier "sid" returns a
record with status `Valid` and the three deadlines computed as now plus the
manager's idle timeout, lifetime and renewal timeout — but the function
performs no store operation whatsoever (its embedding consumes and produces
no store, mirroring the Go body, which never calls `Store.Save`), so
immediately after creation a `Get` on the new identifier against the
manager's store — still empty — fails. -/
theorem C3_create_session_not_persisted :
    (sampleManager.CreateSession 0 "sid").Status = SessionStatus.Valid ∧
    (sampleManager.CreateSession 0 "sid").IdleTime = 15 ∧
    (sampleManager.CreateSession 0 "sid").LifeTime = 1000 ∧
    (sampleManager.CreateSession 0 "sid").RenewalTime = 5 ∧
    (sampleManager.CreateSession 0 "sid").ID = "sid" ∧
    InMemoryStore.Get ([] : InMemoryStore) "sid" = none := by
  decide

/-- C4: whenever the renewal window has elapsed and the idle (or lifetime)
window has elapsed as well — now strictly past the deadlines, matching Go's
strict `After` — `WatchTimeouts` invalidates the session and leaves its
identifier unchanged: rotation is never attempted on a session already past
its idle or lifetime deadline.  Stated over an arbitrary store. -/
theorem C4_no_rotation_past_idle_or_lifetime {σ : Type} (S : Storer σ)
    (s : SessionManager) (session : Session) (st : σ) (now : Int) (newId : String)
    (hrenew : now > session.RenewalTime)
    (hexp : now > session.IdleTime ∨ now > session.LifeTime) :
    (s.WatchTimeouts S session st now newId).1.ID = session.ID ∧
    (s.WatchTimeouts S session st now newId).1.Status = SessionStatus.Invalid := by
  simp [SessionManager.WatchTimeouts, SessionManager.InvalidateSession, hexp]

/-- Witness for C4 at time 25 on the sample session: both hypotheses hold
and the evaluation invalidates without rotating. -/
theorem C4_no_rotation_witness :
    (25 : Int) > sampleSession.RenewalTime ∧
    ((25 : Int) > sampleSession.IdleTime ∨ (25 : Int) > sampleSession.LifeTime) ∧
    ((sampleManager.WatchTimeouts memStorer sampleSession sampleStore 25 "new").1.ID = sampleSession.ID ∧
     (sampleManager.WatchTimeouts memStorer sampleSession sampleStore 25 "new").1.Status = SessionStatus.Invalid) :=
  ⟨by decide, Or.inl (by decide),
   C4_no_rotation_past_idle_or_lifetime memStorer sampleManager sampleSession
     sampleStore 25 "new" (by decide) (Or.inl (by decide))⟩

/-- C5 counterexample: at now exactly equal to the idle deadline (10), with
the lifetime and renewal deadlines still ahead, `WatchTimeouts` does NOT
invalidate: Go's `After` is strict, so the session stays `Valid`, the record
stays fetchable in the store and the cookie keeps its value — refuting the
claim's "including the case where now exactly equals either deadline". -/
theorem C5_boundary_not_invalidated :
    boundarySession.IdleTime = 10 ∧
    (sampleManager.WatchTimeouts memStorer boundarySession boundaryStore 10 "new").1.Status = SessionStatus.Valid ∧
    InMemoryStore.Get (sampleManager.WatchTimeouts memStorer boundarySession boundaryStore 10 "new").2 "old" ≠ none ∧
    (sampleManager.WatchTimeouts memStorer boundarySession boundaryStore 10 "new").1.Cookie.Value = "old" := by
  decide

/-- C5 amended: if now is STRICTLY after the lifetime deadline or strictly
after the idle deadline, `WatchTimeouts` transitions the session to
`Invalid`, deletes the record from the store, clears the cookie's value and
— when the manager's idle timeout is positive, as every real configuration
has — sets the cookie expiry strictly into the past. -/
theorem C5_strictly_after_invalidates (s : SessionManager) (session : Session)
    (st : InMemoryStore) (now : Int) (newId : String)
    (hexp : now > session.IdleTime ∨ now > session.LifeTime)
    (hpos : 0 < s.IdleTimeout) :
    (s.WatchTimeouts memStorer session st now newId).1.Status = SessionStatus.Invalid ∧
    InMemoryStore.Get (s.WatchTimeouts memStorer session st now newId).2 session.ID = none ∧
    (s.WatchTimeouts memStorer session st now newId).1.Cookie.Value = "" ∧
    (s.WatchTimeouts memStorer session st now newId).1.Cookie.Expires < now := by
  refine ⟨?_, ?_, ?_, ?_⟩ <;>
    simp [SessionManager.WatchTimeouts, SessionManager.InvalidateSession, hexp,
      memStorer, InMemoryStore.Delete, InMemoryStore.Get, mapLookup_mapErase_self]
  omega

/-- Witness for C5 at time 25 on the sample session: the idle deadline 20 is
strictly past, the idle timeout 15 is positive, and the conclusion holds. -/
theorem C5_strictly_after_witness :
    ((25 : Int) > sampleSession.IdleTime ∨ (25 : Int) > sampleSession.LifeTime) ∧
    (0 : Int) < sampleManager.IdleTimeout ∧
    ((sampleManager.WatchTimeouts memStorer sampleSession sampleStore 25 "new").1.Status = SessionStatus.Invalid ∧
     InMemoryStore.Get (sampleManager.WatchTimeouts memStorer sampleSession sampleStore 25 "new").2 sampleSession.ID = none ∧
     (sampleManager.WatchTimeouts memStorer sampleSession sampleStore 25 "new").1.Cookie.Value = "" ∧
     (sampleManager.WatchTimeouts memStorer sampleSession sampleStore 25 "new").1.Cookie.Expires < 25) :=
  ⟨Or.inl (by decide), by decide,
   C5_strictly_after_invalidates sampleManager sampleSession sampleStore 25 "new"
     (Or.inl (by decide)) (by decide)⟩

/-- C6: none of `WatchTimeouts`, `RenewSession`, `InvalidateSession` changes
the session's `LifeTime` field: the lifetime deadline fixed at creation
survives every lifecycle operation, over any store and any inputs. -/
theorem C6_lifetime_never_mutated {σ : Type} (S : Storer σ) (s : SessionManager)
    (session : Session) (st : σ) (now : Int) (newId : String) :
    (s.WatchTimeouts S session st now newId).1.LifeTime = session.LifeTime ∧
    (s.RenewSession S session st newId).1.LifeTime = session.LifeTime ∧
    (s.InvalidateSession S session st now).1.LifeTime = session.LifeTime := by
  refine ⟨?_, rfl, rfl⟩
  by_cases h1 : now > session.IdleTime ∨ now > session.LifeTime
  · simp [SessionManager.WatchTimeouts, SessionManager.InvalidateSession, h1]
  · by_cases h2 : now > session.RenewalTime
    · simp [SessionManager.WatchTimeouts, h1, h2]
    · simp [SessionManager.WatchTimeouts, h1, h2]

/-- C7: when the store's `Delete` returns an error, `InvalidateSession`
still performs the logical invalidation — status `Invalid`, cookie value
cleared, cookie expiry strictly in the past for a positive idle timeout —
and keeps whatever store state `Delete` left.  Its Go return type is void,
so the delete error cannot propagate to the caller; it is only logged. -/
theorem C7_invalidate_despite_delete_error {σ : Type} (S : Storer σ)
    (s : SessionManager) (session : Session) (st st1 : σ) (now : Int) (e : String)
    (hdel : S.Delete st session.ID = (some e, st1))
    (hpos : 0 < s.IdleTimeout) :
    (s.InvalidateSession S session st now).1.Status = SessionStatus.Invalid ∧
    (s.InvalidateSession S session st now).1.Cookie.Value = "" ∧
    (s.InvalidateSession S session st now).1.Cookie.Expires < now ∧
    (s.InvalidateSession S session st now).2 = st1 := by
  refine ⟨rfl, rfl, ?_, ?_⟩
  · simp [SessionManager.InvalidateSession]
    omega
  · simp [SessionManager.InvalidateSession, hdel]

/-- Witness for C7: the always-failing store's `Delete` errors on the sample
session, the sample idle timeout is positive, and invalidation proceeds. -/
theorem C7_invalidate_witness :
    failStorer.Delete () sampleSession.ID = (some "io error", ()) ∧
    (0 : Int) < sampleManager.IdleTimeout ∧
    ((sampleManager.InvalidateSession failStorer sampleSession () 0).1.Status = SessionStatus.Invalid ∧
     (sampleManager.InvalidateSession failStorer sampleSession () 0).1.Cookie.Value = "" ∧
     (sampleManager.InvalidateSession failStorer sampleSession () 0).1.Cookie.Expires < 0 ∧
     (sampleManager.InvalidateSession failStorer sampleSession () 0).2 = ()) :=
  ⟨rfl, by decide,
   C7_invalidate_despite_delete_error failStorer sampleManager sampleSession
     () () 0 "io error" rfl (by decide)⟩

/-- C8: `Delete` always returns the nil error — deleting any identifier,
present or absent, succeeds; after the first delete the identifier is
absent, and deleting it again succeeds as well and leaves the store
unchanged (idempotence). -/
theorem C8_delete_idempotent (st : InMemoryStore) (id : String) :
    (memStorer.Delete st id).1 = none ∧
    mapLookup id (memStorer.Delete st id).2 = none ∧
    (memStorer.Delete (memStorer.Delete st id).2 id).1 = none ∧
    (memStorer.Delete (memStorer.Delete st id).2 id).2 = (memStorer.Delete st id).2 := by
  refine ⟨rfl, ?_, rfl, ?_⟩
  · simp [memStorer, InMemoryStore.Delete, mapLookup_mapErase_self]
  · simp [memStorer, InMemoryStore.Delete, mapErase_mapErase]

/-- C9 counterexample: when the original context already holds a binding
under the manager's derived context key, `PopulateRequestContext` shadows
it — the pair retrievable from the original context is no longer retrievable
from the returned context, refuting "every key/value pair retrievable from
the original context is still retrievable unchanged". -/
theorem C9_existing_binding_shadowed :
    Context.value shadowedContext (CtxKey.mgrKey sampleManager.contextKey) =
      some (CtxVal.strVal "already here") ∧
    Context.value (sampleManager.PopulateRequestContext shadowedContext sampleSession)
      (CtxKey.mgrKey sampleManager.contextKey) = some (CtxVal.sessionVal sampleSession) ∧
    CtxVal.sessionVal sampleSession ≠ CtxVal.strVal "already here" := by
  decide

/-- C9 amended: the returned context yields the attached record under the
manager's derived context key, and every pair under any OTHER key is
retrievable unchanged; only a pre-existing binding under the manager's own
key is shadowed. -/
theorem C9_populate_preserves_other_keys (s : SessionManager) (ctx : Context)
    (session : Session) (k : CtxKey) :
    Context.value (s.PopulateRequestContext ctx session)
      (CtxKey.mgrKey s.contextKey) = some (CtxVal.sessionVal session) ∧
    (k ≠ CtxKey.mgrKey s.contextKey →
      Context.value (s.PopulateRequestContext ctx session) k = Context.value ctx k) := by
  constructor
  · simp [SessionManager.PopulateRequestContext, Context.withValue, Context.value]
  · intro hk
    simp [SessionManager.PopulateRequestContext, Context.withValue, Context.value,
      Ne.symm hk]

/-- Witness for C9 at a concrete context and an external key distinct from
the manager's: the record is retrievable under the manager's key and the
external key resolves exactly as in the original context. -/
theorem C9_populate_witness :
    CtxKey.extKey "foo" ≠ CtxKey.mgrKey sampleManager.contextKey ∧
    Context.value (sampleManager.PopulateRequestContext shadowedContext sampleSession)
      (CtxKey.mgrKey sampleManager.contextKey) = some (CtxVal.sessionVal sampleSession) ∧
    Context.value (sampleManager.PopulateRequestContext shadowedContext sampleSession)
      (CtxKey.extKey "foo") = Context.value shadowedContext (CtxKey.extKey "foo") :=
  ⟨by decide,
   (C9_populate_preserves_other_keys sampleManager shadowedContext sampleSession
     (CtxKey.extKey "foo")).1,
   (C9_populate_preserves_other_keys sampleManager shadowedContext sampleSession
     (CtxKey.extKey "foo")).2 (by decide)⟩

/-- C10: `RenewSession` sets the status to `Valid` unconditionally —
whatever the prior status, including `Invalid` — rotates the record's ID and
cookie value to the fresh identifier, and persists the record in the store
(keyed under the old identifier by `InMemoryStore.Update`): renewal is never
refused based on the session's prior status. -/
theorem C10_renew_unconditionally_valid (s : SessionManager) (session : Session)
    (st : InMemoryStore) (newId : String) :
    (s.RenewSession memStorer session st newId).1.Status = SessionStatus.Valid ∧
    (s.RenewSession memStorer session st newId).1.ID = newId ∧
    (s.RenewSession memStorer session st newId).1.Cookie.Value = newId ∧
    InMemoryStore.Get (s.RenewSession memStorer session st newId).2 session.ID =
      some (s.RenewSession memStorer session st newId).1 := by
  refine ⟨rfl, rfl, rfl, ?_⟩
  simp [SessionManager.RenewSession, memStorer, InMemoryStore.Update,
    InMemoryStore.Get, mapLookup_mapInsert_self]

end Guardian
